import Mathlib

/-
Shallow embedding of apps/ops/src/aws/apprunner.ts (letsgo repository).

The AWS SDK, the config store (ssm.ts), the ECR resolver (ecr.ts) and the
tag policy (defaults.ts) are external collaborators: their responses are
supplied as explicit environment inputs, and the commands the code sends
to them are recorded as an event trace (mutating commands plus the URL
sink callback; read-only describe and list calls are not traced).
Timestamps (new Date().toISOString()) are supplied as an input string.
process.exit(1) is modelled as a distinct outcome constructor, and a
rethrown exception likewise.
-/

/-- Interface AutoScalingSettings, apprunner.ts lines 59-63. -/
structure AutoScalingSettings where
  minSize : Nat
  maxSize : Nat
  maxConcurrency : Nat
deriving DecidableEq

/-- Interface HealthCheckSettings, apprunner.ts lines 65-71. -/
structure HealthCheckSettings where
  path : String
  interval : Nat
  timeout : Nat
  healthyThreshold : Nat
  unhealthyThreshold : Nat
deriving DecidableEq

/-- The fields of EnsureAppRunnerOptions (lines 73-89) that carry behavior.
The callbacks (setAppRunnerUrl, logger) are modelled as trace events. -/
structure EnsureAppRunnerOptions where
  region : String
  deployment : String
  component : String
  ecrRepositoryName : String
  imageTag : String
  autoScalingConfigurationName : String
  autoScaling : AutoScalingSettings
  healthCheck : HealthCheckSettings
  appRunnerServiceName : String
  appRunnerInstanceRoleArn : String
  appRunnerCpu : Option String
  appRunnerMemory : Option String
  ignoreConfigKeys : List String
deriving DecidableEq

/-- ImageConfiguration of an observed Service (SDK shape): the maps
RuntimeEnvironmentSecrets and RuntimeEnvironmentVariables, as key-value
association lists. -/
structure ImageCfg where
  runtimeEnvironmentSecrets : List (String × String)
  runtimeEnvironmentVariables : List (String × String)
deriving DecidableEq

/-- ImageRepository of an observed Service (optional fields per the SDK). -/
structure ImageRepo where
  imageIdentifier : Option String
  imageConfiguration : Option ImageCfg
deriving DecidableEq

/-- SourceConfiguration of an observed Service. -/
structure SourceCfg where
  imageRepository : Option ImageRepo
deriving DecidableEq

/-- InstanceConfiguration of an observed Service. -/
structure InstanceCfg where
  cpu : Option String
  memory : Option String
deriving DecidableEq

/-- Observed HealthCheckConfiguration (all fields optional per the SDK). -/
structure HealthObs where
  path : Option String
  interval : Option Nat
  timeout : Option Nat
  healthyThreshold : Option Nat
  unhealthyThreshold : Option Nat
deriving DecidableEq

/-- Observed Service record (the SDK Service type, restricted to the fields
apprunner.ts reads). autoScalingConfigurationArn stands for
AutoScalingConfigurationSummary?.AutoScalingConfigurationArn. -/
structure Service where
  serviceArn : Option String
  serviceUrl : Option String
  status : Option String
  sourceConfiguration : Option SourceCfg
  healthCheckConfiguration : Option HealthObs
  instanceConfiguration : Option InstanceCfg
  autoScalingConfigurationArn : Option String
deriving DecidableEq

/-- A ServiceSummary as read by ensureAppRunner / getOneLetsGoAppRunnerService. -/
structure Summary where
  serviceArn : Option String
  serviceUrl : Option String
  status : Option String
deriving DecidableEq

/-- AutoScalingConfigurationSummary as read by
deleteUnusedAutoScalingConfigurations (lines 104-115). -/
structure ASCSummary where
  arn : Option String
  hasAssociatedService : Bool
  status : Option String
deriving DecidableEq

/-- The describe response seen by one iteration of waitForAppRunnerService:
either a successful DescribeServiceCommandOutput (whose Service field may be
absent), a ResourceNotFoundException, or any other error. -/
inductive DescribeResp where
  | ok : Option Service → DescribeResp
  | errNotFound : DescribeResp
  | errOther : DescribeResp
deriving DecidableEq

/-- How waitForAppRunnerService leaves its loop: a normal return of
Service | undefined (lines 143, 150, 161, 172), process.exit(1)
(lines 157, 168), a rethrown error (line 145), or the model artifact of
running out of supplied describe responses. -/
inductive WaitRet where
  | ret : Option Service → WaitRet
  | exit1 : WaitRet
  | err : WaitRet
  | exhausted : WaitRet
deriving DecidableEq

/-- Current AutoScalingConfiguration settings as read from the
DescribeAutoScalingConfiguration response (lines 232-234); the
`|| {}` fallback and the SDK optional fields are both covered by
Option-valued fields. -/
structure CurASC where
  maxConcurrency : Option Nat
  maxSize : Option Nat
  minSize : Option Nat
deriving DecidableEq

/-- The desired HealthCheckConfiguration built by getHealthCheckSettings
(lines 194-203). -/
structure HealthReq where
  protocol : String
  path : String
  interval : Nat
  timeout : Nat
  healthyThreshold : Nat
  unhealthyThreshold : Nat
deriving DecidableEq

/-- ImageConfiguration section of the UpdateServiceCommand (lines 346-356). -/
structure ImageCfgReq where
  runtimeEnvironmentSecrets : List (String × String)
  runtimeEnvironmentVariables : List (String × String)
deriving DecidableEq

/-- SourceConfiguration section of the UpdateServiceCommand (lines 340-363). -/
structure SourceReq where
  imageIdentifier : String
  imageConfiguration : Option ImageCfgReq
deriving DecidableEq

/-- InstanceConfiguration section of the UpdateServiceCommand (lines 331-335). -/
structure InstanceReq where
  instanceRoleArn : String
  cpu : Option String
  memory : Option String
deriving DecidableEq

/-- The UpdateServiceCommand input built at lines 317-366; a section is none
when its conditional spread contributes nothing. -/
structure UpdateRequest where
  serviceArn : Option String
  autoScalingConfigurationArn : Option String
  healthCheckConfiguration : Option HealthReq
  instanceConfiguration : Option InstanceReq
  sourceConfiguration : Option SourceReq
deriving DecidableEq

/-- Trace events: the mutating AWS commands the code sends, plus the
setAppRunnerUrl callback. Read-only commands (describe, list) are not
traced. -/
inductive Event where
  | deleteASC : Option String → Event
  | createASC : String → Event
  | updateSvc : UpdateRequest → Event
  | tagSvc : Option String → Event
  | createSvc : String → Event
  | setUrl : String → Event
  | deleteSvc : String → Event
deriving DecidableEq

/-- Discriminator for deleteASC events. -/
def Event.isDeleteASC : Event → Bool
  | .deleteASC _ => true
  | _ => false

/-- Discriminator for tagSvc events. -/
def Event.isTagSvc : Event → Bool
  | .tagSvc _ => true
  | _ => false

/-- Discriminator for updateSvc events. -/
def Event.isUpdateSvc : Event → Bool
  | .updateSvc _ => true
  | _ => false

/-- MaxWaitTimeForAppRunnerCreate, line 26. -/
def MaxWaitTimeForAppRunnerCreate : Nat := 60 * 15

/-- MaxWaitTimeForAppRunnerUpdate, line 27. -/
def MaxWaitTimeForAppRunnerUpdate : Nat := 60 * 15

/-- JavaScript truthiness of a string | undefined value: truthy iff present
and nonempty. -/
def truthy (o : Option String) : Bool := o.getD "" != ""

/-- The delay update at lines 174-180 of waitForAppRunnerService: strictly
greater-than comparisons on the elapsed clock; otherwise the delay is kept. -/
def nextDelay (clock delay : Nat) : Nat :=
  if 60 < clock then 10 else if 20 < clock then 5 else if 5 < clock then 2 else delay

/-- The polling loop of waitForAppRunnerService (lines 124-184), consuming one
supplied describe response per iteration. Returns the list of
(clock, delay) pairs for every sleep performed (line 182) together with how
the loop left. The region/serviceArn/logger arguments carry no behavior and
are dropped. -/
def waitForAppRunnerService (isDeleting : Bool) (maxWait : Nat) :
    Nat → Nat → List DescribeResp → List (Nat × Nat) × WaitRet
  | _, _, [] => ([], WaitRet.exhausted)
  | _, _, DescribeResp.errNotFound :: _ =>
      if isDeleting then ([], WaitRet.ret none) else ([], WaitRet.err)
  | _, _, DescribeResp.errOther :: _ => ([], WaitRet.err)
  | clock, delay, DescribeResp.ok svc :: rest =>
      let st := svc.bind Service.status
      if isDeleting then
        if st == some "DELETED" then ([], WaitRet.ret none)
        else if st != some "OPERATION_IN_PROGRESS" then ([], WaitRet.exit1)
        else if maxWait ≤ clock then ([], WaitRet.ret svc)
        else
          let d := nextDelay clock delay
          let next := waitForAppRunnerService isDeleting maxWait (clock + d) d rest
          ((clock, d) :: next.1, next.2)
      else
        if st == some "RUNNING" then ([], WaitRet.ret svc)
        else if st != some "OPERATION_IN_PROGRESS" then ([], WaitRet.exit1)
        else if maxWait ≤ clock then ([], WaitRet.ret none)
        else
          let d := nextDelay clock delay
          let next := waitForAppRunnerService isDeleting maxWait (clock + d) d rest
          ((clock, d) :: next.1, next.2)

/-- The reclaim condition at line 106:
!revision.HasAssociatedService && revision.Status === "active". -/
def unusedActive (r : ASCSummary) : Bool :=
  !r.hasAssociatedService && (r.status == some "active")

/-- deleteUnusedAutoScalingConfigurations (lines 91-122): walks every page of
the ListAutoScalingConfigurations results (NextToken pagination) and deletes
every revision with no associated service and status active, in listing
order. Returns the delete events it sends. -/
def deleteUnusedAutoScalingConfigurations : List (List ASCSummary) → List Event
  | [] => []
  | page :: rest =>
      (page.filter unusedActive).map (fun r => Event.deleteASC r.arn)
        ++ deleteUnusedAutoScalingConfigurations rest

/-- The autoscaling change detection at lines 236-241: any of MaxConcurrency,
MinSize, MaxSize differing by direct inequality. The observed side comes
from the describe response with `|| {}` fallback, so its fields are
Option-valued; the desired side is getAutoScalingSettings(options). -/
def autoScalingNeedsUpdate (cur : CurASC) (opts : EnsureAppRunnerOptions) : Bool :=
  (cur.maxConcurrency != some opts.autoScaling.maxConcurrency)
  || (cur.minSize != some opts.autoScaling.minSize)
  || (cur.maxSize != some opts.autoScaling.maxSize)

/-- The health-check change detection at lines 255-269: any of Path, Interval,
Timeout, HealthyThreshold, UnhealthyThreshold differing from
getHealthCheckSettings(options); the Protocol field is not compared. -/
def healthCheckNeedsUpdate (existing : Service) (opts : EnsureAppRunnerOptions) : Bool :=
  let cur := existing.healthCheckConfiguration
  ((cur.bind HealthObs.path) != some opts.healthCheck.path)
  || ((cur.bind HealthObs.interval) != some opts.healthCheck.interval)
  || ((cur.bind HealthObs.timeout) != some opts.healthCheck.timeout)
  || ((cur.bind HealthObs.healthyThreshold) != some opts.healthCheck.healthyThreshold)
  || ((cur.bind HealthObs.unhealthyThreshold) != some opts.healthCheck.unhealthyThreshold)

/-- The instance-configuration change detection at lines 272-274. -/
def instanceNeedsUpdate (existing : Service) (opts : EnsureAppRunnerOptions) : Bool :=
  ((existing.instanceConfiguration.bind InstanceCfg.cpu) != opts.appRunnerCpu)
  || ((existing.instanceConfiguration.bind InstanceCfg.memory) != opts.appRunnerMemory)

/-- The current image identifier chain
existingService.SourceConfiguration?.ImageRepository?.ImageIdentifier. -/
def currentImageIdentifier (existing : Service) : Option String :=
  (existing.sourceConfiguration.bind SourceCfg.imageRepository).bind ImageRepo.imageIdentifier

/-- The image change detection at lines 277-279: exact string comparison of
the current identifier (with "" fallback) against resolvedUrl:imageTag. -/
def imageNeedsUpdate (existing : Service) (ecrUrl : String)
    (opts : EnsureAppRunnerOptions) : Bool :=
  ((currentImageIdentifier existing).getD "") != (ecrUrl ++ ":" ++ opts.imageTag)

/-- The current RuntimeEnvironmentSecrets map with `|| {}` fallback
(lines 282-285). -/
def currentRuntimeSecrets (existing : Service) : List (String × String) :=
  (((existing.sourceConfiguration.bind SourceCfg.imageRepository).bind
      ImageRepo.imageConfiguration).map ImageCfg.runtimeEnvironmentSecrets).getD []

/-- Object.keys of the current secret bindings. -/
def currentConfigKeys (existing : Service) : List String :=
  (currentRuntimeSecrets existing).map Prod.fst

/-- The variables change detection at lines 291-301: some desired key is
neither current nor ignored, or some current key is neither desired nor
ignored (the code uses Array.find !== undefined). -/
def configNeedsUpdate (currentKeys desiredKeys ignore : List String) : Bool :=
  (desiredKeys.find? (fun key =>
      !(currentKeys.contains key) && !(ignore.contains key))).isSome
  || (currentKeys.find? (fun key =>
      !(desiredKeys.contains key) && !(ignore.contains key))).isSome

/-- Environment consumed by one run of updateAppRunnerService: the ECR
resolver result, the pages returned to the reclaim sweep, the
DescribeAutoScalingConfiguration response (flattened through `|| {}`),
the arn returned by CreateAutoScalingConfiguration (when sent), the config
store bindings, the fresh timestamp, and the describe responses fed to the
wait loop. -/
structure UpdateEnv where
  ecrUrl : String
  ascPages : List (List ASCSummary)
  currentASC : CurASC
  createArn : Option String
  desiredConfig : List (String × String)
  now : String
  waitResponses : List DescribeResp
deriving DecidableEq

/-- newAutoScalingConfigurationArn (lines 242-252): set only when the
autoscaling settings differ, to whatever arn the create call returned. -/
def newASCArn (opts : EnsureAppRunnerOptions) (env : UpdateEnv) : Option String :=
  if autoScalingNeedsUpdate env.currentASC opts then env.createArn else none

/-- getHealthCheckSettings(options), lines 194-203. -/
def desiredHealthReq (opts : EnsureAppRunnerOptions) : HealthReq :=
  { protocol := "HTTP"
  , path := opts.healthCheck.path
  , interval := opts.healthCheck.interval
  , timeout := opts.healthCheck.timeout
  , healthyThreshold := opts.healthCheck.healthyThreshold
  , unhealthyThreshold := opts.healthCheck.unhealthyThreshold }

/-- The RuntimeEnvironmentVariables literal at lines 348-354 (update) and
462-468 (create): the LETSGO_UPDATED_AT entry carries the fresh timestamp. -/
def stdRuntimeVariables (opts : EnsureAppRunnerOptions) (now : String) :
    List (String × String) :=
  [("LETSGO_IMAGE_TAG", opts.imageTag), ("LETSGO_DEPLOYMENT", opts.deployment),
   ("LETSGO_UPDATED_AT", now), ("HOSTNAME", "0.0.0.0")]

/-- The update plan built at lines 304-310. -/
def updatePlan (opts : EnsureAppRunnerOptions) (existing : Service)
    (env : UpdateEnv) : List String :=
  (if truthy (newASCArn opts env) then ["autoscaling settings"] else [])
  ++ (if healthCheckNeedsUpdate existing opts then ["healthcheck settings"] else [])
  ++ (if instanceNeedsUpdate existing opts then ["instance configuration"] else [])
  ++ (if imageNeedsUpdate existing env.ecrUrl opts then ["image"] else [])
  ++ (if configNeedsUpdate (currentConfigKeys existing)
        (env.desiredConfig.map Prod.fst) opts.ignoreConfigKeys
      then ["variables"] else [])

/-- The UpdateServiceCommand input built at lines 317-366. Note the
SourceConfiguration spread requires image or variables changes, and the
ImageConfiguration carrying the LETSGO_UPDATED_AT stamp requires a
variables change. -/
def updateRequest (opts : EnsureAppRunnerOptions) (existing : Service)
    (env : UpdateEnv) : UpdateRequest :=
  let dConfig := configNeedsUpdate (currentConfigKeys existing)
      (env.desiredConfig.map Prod.fst) opts.ignoreConfigKeys
  { serviceArn := existing.serviceArn
  , autoScalingConfigurationArn :=
      if truthy (newASCArn opts env) then newASCArn opts env else none
  , healthCheckConfiguration :=
      if healthCheckNeedsUpdate existing opts then some (desiredHealthReq opts) else none
  , instanceConfiguration :=
      if instanceNeedsUpdate existing opts then
        some { instanceRoleArn := opts.appRunnerInstanceRoleArn
             , cpu := opts.appRunnerCpu, memory := opts.appRunnerMemory }
      else none
  , sourceConfiguration :=
      if imageNeedsUpdate existing env.ecrUrl opts || dConfig then
        some { imageIdentifier := env.ecrUrl ++ ":" ++ opts.imageTag
             , imageConfiguration :=
                 if dConfig then
                   some { runtimeEnvironmentSecrets := env.desiredConfig
                        , runtimeEnvironmentVariables := stdRuntimeVariables opts env.now }
                 else none }
      else none }

/-- The fingerprint read at lines 395-398:
service.SourceConfiguration?.ImageRepository?.ImageConfiguration?.
RuntimeEnvironmentVariables?.LETSGO_UPDATED_AT. -/
def observedUpdatedAt (svc : Service) : Option String :=
  ((svc.sourceConfiguration.bind SourceCfg.imageRepository).bind
      ImageRepo.imageConfiguration).bind
    (fun cfg => (cfg.runtimeEnvironmentVariables.find?
        (fun kv => kv.1 == "LETSGO_UPDATED_AT")).map Prod.snd)

/-- How updateAppRunnerService ends: the final up-to-date log (line 412),
the not-RUNNING-within-bound exit (line 393), the rolled-back exit
(line 409), an exit inside the wait loop, a rethrown error, or response
exhaustion. -/
inductive UpdateOutcome where
  | upToDate
  | exitNotRunning
  | exitRolledBack
  | exitWaitFatal
  | threw
  | exhausted
deriving DecidableEq

/-- The mutating commands one run of updateAppRunnerService sends, in order:
the reclaim deletions (line 219), the CreateAutoScalingConfiguration when
the settings differ (lines 243-252), and, when the plan is nonempty, the
combined UpdateServiceCommand (line 367) followed by the TagResourceCommand
(line 374). -/
def updateServiceTrace (opts : EnsureAppRunnerOptions) (existing : Service)
    (env : UpdateEnv) : List Event :=
  deleteUnusedAutoScalingConfigurations env.ascPages
  ++ (if autoScalingNeedsUpdate env.currentASC opts then
        [Event.createASC opts.autoScalingConfigurationName]
      else [])
  ++ (if (updatePlan opts existing env).isEmpty then []
      else [Event.updateSvc (updateRequest opts existing env),
            Event.tagSvc existing.serviceArn])

/-- updateAppRunnerService (lines 205-417): reclaim sweep, autoscaling
describe and conditional revision creation, per-category diff, the combined
update request plus tag call when the plan is nonempty, the RUNNING wait,
and the fingerprint verification. -/
def updateAppRunnerService (opts : EnsureAppRunnerOptions) (existing : Service)
    (env : UpdateEnv) : List Event × UpdateOutcome :=
  let trace := updateServiceTrace opts existing env
  if (updatePlan opts existing env).isEmpty then (trace, UpdateOutcome.upToDate)
  else
    match (waitForAppRunnerService false MaxWaitTimeForAppRunnerUpdate 0 1
        env.waitResponses).2 with
    | WaitRet.ret none => (trace, UpdateOutcome.exitNotRunning)
    | WaitRet.ret (some svc) =>
        if observedUpdatedAt svc != some env.now then
          (trace, UpdateOutcome.exitRolledBack)
        else (trace, UpdateOutcome.upToDate)
    | WaitRet.exit1 => (trace, UpdateOutcome.exitWaitFatal)
    | WaitRet.err => (trace, UpdateOutcome.threw)
    | WaitRet.exhausted => (trace, UpdateOutcome.exhausted)

/-- How createAppRunnerService ends: created at URL (line 509), the
not-RUNNING-within-bound exit (line 525), an exit inside the wait loop, a
rethrown error, or response exhaustion. -/
inductive CreateOutcome where
  | createdOk
  | exitNotRunning
  | exitWaitFatal
  | threw
  | exhausted
deriving DecidableEq

/-- Environment consumed by one run of createAppRunnerService. -/
structure CreateEnv where
  ecrUrl : String
  ascPages : List (List ASCSummary)
  desiredConfig : List (String × String)
  now : String
  createResp : Option Service
  waitResponses : List DescribeResp
deriving DecidableEq

/-- The mutating commands one run of createAppRunnerService sends, in order:
the reclaim deletions (line 432), the CreateAutoScalingConfiguration
(line 447), the CreateServiceCommand (line 495), and the URL sink callback
(line 496), which happens before the RUNNING wait. -/
def createServiceTrace (opts : EnsureAppRunnerOptions) (env : CreateEnv) :
    List Event :=
  let u := (env.createResp.bind Service.serviceUrl).getD ""
  let url := if u != "" then "https://" ++ u else ""
  deleteUnusedAutoScalingConfigurations env.ascPages ++
    [Event.createASC opts.autoScalingConfigurationName,
     Event.createSvc opts.appRunnerServiceName,
     Event.setUrl url]

/-- createAppRunnerService (lines 419-527): reclaim sweep, autoscaling
revision creation, service creation, URL sink callback before the wait,
then the RUNNING wait. -/
def createAppRunnerService (opts : EnsureAppRunnerOptions) (env : CreateEnv) :
    List Event × CreateOutcome :=
  let trace := createServiceTrace opts env
  match (waitForAppRunnerService false MaxWaitTimeForAppRunnerCreate 0 1
      env.waitResponses).2 with
  | WaitRet.ret (some _) => (trace, CreateOutcome.createdOk)
  | WaitRet.ret none => (trace, CreateOutcome.exitNotRunning)
  | WaitRet.exit1 => (trace, CreateOutcome.exitWaitFatal)
  | WaitRet.err => (trace, CreateOutcome.threw)
  | WaitRet.exhausted => (trace, CreateOutcome.exhausted)

/-- The response to the DeleteServiceCommand at line 540. -/
inductive DeleteResp where
  | ok
  | errInvalidState
  | errNotFound
  | errOther
deriving DecidableEq

/-- How deleteAppRunnerService ends: normal return (deletion confirmed or
not-found), the InvalidStateException exit (line 544), the
still-present-after-timeout exit (line 564), an exit inside the wait loop,
a rethrown error, or response exhaustion. -/
inductive DeleteOutcome where
  | ok
  | exitInvalidState
  | exitNotDeleted
  | exitWaitFatal
  | threw
  | exhausted
deriving DecidableEq

/-- Environment consumed by one run of deleteAppRunnerService. -/
structure DeleteEnv where
  deleteResp : DeleteResp
  waitResponses : List DescribeResp
deriving DecidableEq

/-- deleteAppRunnerService (lines 529-566): send the delete (not-found is
success, invalid state is fatal), then wait for DELETED; a record still
present after the wait is fatal. -/
def deleteAppRunnerService (serviceArn : String) (env : DeleteEnv) :
    List Event × DeleteOutcome :=
  let trace := [Event.deleteSvc serviceArn]
  match env.deleteResp with
  | DeleteResp.errInvalidState => (trace, DeleteOutcome.exitInvalidState)
  | DeleteResp.errNotFound => (trace, DeleteOutcome.ok)
  | DeleteResp.errOther => (trace, DeleteOutcome.threw)
  | DeleteResp.ok =>
      match (waitForAppRunnerService true MaxWaitTimeForAppRunnerUpdate 0 1
          env.waitResponses).2 with
      | WaitRet.ret none => (trace, DeleteOutcome.ok)
      | WaitRet.ret (some _) => (trace, DeleteOutcome.exitNotDeleted)
      | WaitRet.exit1 => (trace, DeleteOutcome.exitWaitFatal)
      | WaitRet.err => (trace, DeleteOutcome.threw)
      | WaitRet.exhausted => (trace, DeleteOutcome.exhausted)

/-- Modelled from the spec: the deployment tag key of TagKeys (defaults.ts is
not part of the sources; the TagPolicy collaborator of the spec supplies the
key names; the exact value is immaterial). -/
def LetsGoDeploymentTagKey : String := "letsgo-deployment"

/-- Modelled from the spec: the component tag key of TagKeys (defaults.ts is
not part of the sources). -/
def LetsGoComponentTagKey : String := "letsgo-component"

/-- Lookup of a tag value in a ListTagsForResource response (lines 583-588):
Tags?.find(tag => tag.Key === key)?.Value, with both Key and Value optional
per the SDK. -/
def tagValue (tags : List (Option String × Option String)) (key : String) :
    Option String :=
  (tags.find? (fun t => t.1 == some key)).bind Prod.snd

/-- The push condition at lines 589-594: both tag values truthy, and each
supplied filter either falsy or equal to the corresponding tag value. -/
def keepService (deployment component : Option String)
    (tags : List (Option String × Option String)) : Bool :=
  let dv := tagValue tags LetsGoDeploymentTagKey
  let cv := tagValue tags LetsGoComponentTagKey
  truthy dv && truthy cv
    && (!(truthy deployment) || dv == deployment)
    && (!(truthy component) || cv == component)

/-- listLetsGoAppRunnerServices (lines 568-604): drains every page of
ListServices via NextToken, reads each service's tags, and keeps the
services passing keepService, in listing order. Each page entry pairs a
summary with its ListTagsForResource response. -/
def listLetsGoAppRunnerServices (deployment component : Option String) :
    List (List (Summary × List (Option String × Option String))) → List Summary
  | [] => []
  | page :: rest =>
      ((page.filter (fun e => keepService deployment component e.2)).map Prod.fst)
        ++ listLetsGoAppRunnerServices deployment component rest

/-- How ensureAppRunner ends: the ambiguous-identity exit (line 631), the
busy exit (line 653), a failed embedded delete flow, or the outcome of the
dispatched create or update flow. -/
inductive EnsureOutcome where
  | exitAmbiguous
  | exitBusy
  | deleteFailed : DeleteOutcome → EnsureOutcome
  | createDone : CreateOutcome → EnsureOutcome
  | updateDone : UpdateOutcome → EnsureOutcome
deriving DecidableEq

/-- Environment consumed by one run of ensureAppRunner: the discovery pages,
then the environments of whichever flows run. -/
structure EnsureEnv where
  listPages : List (List (Summary × List (Option String × Option String)))
  deleteEnv : DeleteEnv
  describeResp : Option Service
  createEnv : CreateEnv
  updateEnv : UpdateEnv
deriving DecidableEq

/-- ensureAppRunner (lines 643-674) together with
getOneLetsGoAppRunnerService (lines 606-641): discovery, the ambiguous and
busy exits, the CREATE_FAILED delete-then-absent path, and dispatch to the
create or update flow. -/
def ensureAppRunner (opts : EnsureAppRunnerOptions) (env : EnsureEnv) :
    List Event × EnsureOutcome :=
  let found := listLetsGoAppRunnerServices (some opts.deployment)
      (some opts.component) env.listPages
  if 1 < found.length then ([], EnsureOutcome.exitAmbiguous)
  else
    match found.head? with
    | none =>
        let r := createAppRunnerService opts env.createEnv
        (r.1, EnsureOutcome.createDone r.2)
    | some s =>
        if s.status == some "OPERATION_IN_PROGRESS" then
          ([], EnsureOutcome.exitBusy)
        else if s.status == some "CREATE_FAILED" then
          let d := deleteAppRunnerService (s.serviceArn.getD "") env.deleteEnv
          match d.2 with
          | DeleteOutcome.ok =>
              let r := createAppRunnerService opts env.createEnv
              (d.1 ++ r.1, EnsureOutcome.createDone r.2)
          | o => (d.1, EnsureOutcome.deleteFailed o)
        else
          match env.describeResp with
          | none =>
              let r := createAppRunnerService opts env.createEnv
              (r.1, EnsureOutcome.createDone r.2)
          | some existing =>
              if s.status == some "DELETED" then
                let r := createAppRunnerService opts env.createEnv
                (r.1, EnsureOutcome.createDone r.2)
              else
                let r := updateAppRunnerService opts existing env.updateEnv
                (r.1, EnsureOutcome.updateDone r.2)

/-- The delay schedule as the claim states it: elapsed in [0,5) gives 1s,
[5,20) gives 2s, [20,60) gives 5s, [60,inf) gives 10s. -/
def claimScheduleDelay (elapsed : Nat) : Nat :=
  if elapsed < 5 then 1 else if elapsed < 20 then 2
  else if elapsed < 60 then 5 else 10

/-- The delay schedule the code actually implements (strict comparisons at
lines 174-180, so the boundary seconds 5, 20 and 60 keep the smaller
delay): elapsed in [0,5] gives 1s, (5,20] gives 2s, (20,60] gives 5s,
(60,inf) gives 10s. -/
def codeScheduleDelay (elapsed : Nat) : Nat :=
  if elapsed ≤ 5 then 1 else if elapsed ≤ 20 then 2
  else if elapsed ≤ 60 then 5 else 10

/-- Modelled from the spec (section 4.4): the variables category differs iff
the symmetric difference of the current and desired key sets, with every
ignored key excluded on both sides, is nonempty. -/
def specVariablesDiffer (currentKeys desiredKeys ignore : List String) : Prop :=
  ∃ key, (key ∈ desiredKeys ∧ key ∉ ignore ∧ key ∉ currentKeys)
       ∨ (key ∈ currentKeys ∧ key ∉ ignore ∧ key ∉ desiredKeys)

/-- The five diff categories of the update plan. -/
inductive DiffCategory where
  | autoscaling
  | healthcheck
  | instanceSizing
  | image
  | envVars
deriving DecidableEq, Fintype

/-- The label each category contributes to the update plan (lines 304-310). -/
def categoryLabel : DiffCategory → String
  | DiffCategory.autoscaling => "autoscaling settings"
  | DiffCategory.healthcheck => "healthcheck settings"
  | DiffCategory.instanceSizing => "instance configuration"
  | DiffCategory.image => "image"
  | DiffCategory.envVars => "variables"

/-- Whether a given category differs between observed and desired state, per
the code's own change-detection predicates. -/
def categoryDiffers (opts : EnsureAppRunnerOptions) (existing : Service)
    (env : UpdateEnv) : DiffCategory → Bool
  | DiffCategory.autoscaling => autoScalingNeedsUpdate env.currentASC opts
  | DiffCategory.healthcheck => healthCheckNeedsUpdate existing opts
  | DiffCategory.instanceSizing => instanceNeedsUpdate existing opts
  | DiffCategory.image => imageNeedsUpdate existing env.ecrUrl opts
  | DiffCategory.envVars => configNeedsUpdate (currentConfigKeys existing)
      (env.desiredConfig.map Prod.fst) opts.ignoreConfigKeys

/-- The reclaim sweep deletes exactly the unused active revisions of the
drained pages, in listing order. -/
lemma reclaim_eq_filter_join (pages : List (List ASCSummary)) :
    deleteUnusedAutoScalingConfigurations pages
      = (pages.flatten.filter unusedActive).map (fun r => Event.deleteASC r.arn) := by
  induction pages with
  | nil => simp [deleteUnusedAutoScalingConfigurations]
  | cons page rest ih =>
      simp [deleteUnusedAutoScalingConfigurations, ih, List.filter_append]

/-- Every event the reclaim sweep emits is an autoscaling-configuration
deletion. -/
lemma reclaim_all_deleteASC (pages : List (List ASCSummary)) :
    ∀ e ∈ deleteUnusedAutoScalingConfigurations pages, Event.isDeleteASC e = true := by
  intro e he
  rw [reclaim_eq_filter_join] at he
  obtain ⟨r, _, rfl⟩ := List.mem_map.mp he
  rfl

lemma takeWhile_append_all {α : Type} (p : α → Bool) :
    ∀ (d m : List α), (∀ e ∈ d, p e = true) →
      (d ++ m).takeWhile p = d ++ m.takeWhile p := by
  intro d m h
  induction d with
  | nil => simp
  | cons a d ih =>
      have ha : p a = true := h a (by simp)
      simp only [List.cons_append, List.takeWhile_cons, ha, if_true]
      rw [ih (fun e he => h e (by simp [he]))]

lemma dropWhile_append_all {α : Type} (p : α → Bool) :
    ∀ (d m : List α), (∀ e ∈ d, p e = true) →
      (d ++ m).dropWhile p = m.dropWhile p := by
  intro d m h
  induction d with
  | nil => simp
  | cons a d ih =>
      have ha : p a = true := h a (by simp)
      simp only [List.cons_append, List.dropWhile_cons, ha, if_true]
      exact ih (fun e he => h e (by simp [he]))

lemma nextDelay_pos (clock delay : Nat) (h : 1 ≤ delay) : 1 ≤ nextDelay clock delay := by
  unfold nextDelay
  split
  · omega
  · split
    · omega
    · split
      · omega
      · omega

lemma nextDelay_eq_schedule (clock delay : Nat) (h : clock ≤ 5 → delay = 1) :
    nextDelay clock delay = codeScheduleDelay clock := by
  unfold nextDelay codeScheduleDelay
  by_cases h60 : 60 < clock
  · rw [if_pos h60, if_neg (by omega : ¬ clock ≤ 5), if_neg (by omega : ¬ clock ≤ 20),
      if_neg (by omega : ¬ clock ≤ 60)]
  · rw [if_neg h60]
    by_cases h20 : 20 < clock
    · rw [if_pos h20, if_neg (by omega : ¬ clock ≤ 5), if_neg (by omega : ¬ clock ≤ 20),
        if_pos (by omega : clock ≤ 60)]
    · rw [if_neg h20]
      by_cases h5 : 5 < clock
      · rw [if_pos h5, if_neg (by omega : ¬ clock ≤ 5), if_pos (by omega : clock ≤ 20)]
      · rw [if_neg h5, if_pos (by omega : clock ≤ 5), h (by omega)]

/-- A reachRunning wait can only return a record whose observed status is
RUNNING (line 161 is the only record-returning exit of the non-deleting
mode; the timeout exit at line 172 returns undefined in that mode). -/
lemma waitFor_false_ret_some {maxWait : Nat} :
    ∀ (rs : List DescribeResp) (clock delay : Nat) (s : Service),
      (waitForAppRunnerService false maxWait clock delay rs).2 = WaitRet.ret (some s) →
      s.status = some "RUNNING" := by
  intro rs
  induction rs with
  | nil => intro clock delay s h; simp [waitForAppRunnerService] at h
  | cons r rest ih =>
      intro clock delay s h
      cases r with
      | errNotFound => simp [waitForAppRunnerService] at h
      | errOther => simp [waitForAppRunnerService] at h
      | ok svc =>
          by_cases hrun : (svc.bind Service.status == some "RUNNING") = true
          · have h2 : (waitForAppRunnerService false maxWait clock delay
                (DescribeResp.ok svc :: rest)).2 = WaitRet.ret svc := by
              simp [waitForAppRunnerService, hrun]
            rw [h2] at h
            have hs : svc = some s := by injection h
            subst hs
            have hb := beq_iff_eq.mp hrun
            simpa using hb
          · by_cases hop : (svc.bind Service.status != some "OPERATION_IN_PROGRESS") = true
            · have h2 : (waitForAppRunnerService false maxWait clock delay
                  (DescribeResp.ok svc :: rest)).2 = WaitRet.exit1 := by
                simp [waitForAppRunnerService, hrun, hop]
              rw [h2] at h
              exact absurd h (by simp)
            · by_cases htime : maxWait ≤ clock
              · have h2 : (waitForAppRunnerService false maxWait clock delay
                    (DescribeResp.ok svc :: rest)).2 = WaitRet.ret none := by
                  simp [waitForAppRunnerService, hrun, hop, htime]
                rw [h2] at h
                exact absurd h (by simp)
              · have h2 : (waitForAppRunnerService false maxWait clock delay
                    (DescribeResp.ok svc :: rest)).2
                      = (waitForAppRunnerService false maxWait
                          (clock + nextDelay clock delay) (nextDelay clock delay) rest).2 := by
                  simp [waitForAppRunnerService, hrun, hop, htime]
                rw [h2] at h
                exact ih _ _ s h

/-- A reachRunning wait over uniformly in-progress responses whose bound
elapses returns undefined (line 172, non-deleting mode). -/
lemma waitFor_timeout_false (svc : Service)
    (hst : svc.status = some "OPERATION_IN_PROGRESS") :
    ∀ (rs : List DescribeResp) (clock delay maxWait : Nat),
      rs ≠ [] → (∀ r ∈ rs, r = DescribeResp.ok (some svc)) → 1 ≤ delay →
      maxWait < clock + rs.length →
      (waitForAppRunnerService false maxWait clock delay rs).2 = WaitRet.ret none := by
  intro rs
  induction rs with
  | nil => intro clock delay maxWait hne _ _ _; exact absurd rfl hne
  | cons r rest ih =>
      intro clock delay maxWait _ hall hd hbound
      have hr : r = DescribeResp.ok (some svc) := hall r (by simp)
      subst hr
      have hrun : ((some svc).bind Service.status == some "RUNNING") = false := by
        rw [show (some svc).bind Service.status = svc.status from rfl, hst]; decide
      have hop : ((some svc).bind Service.status != some "OPERATION_IN_PROGRESS") = false := by
        rw [show (some svc).bind Service.status = svc.status from rfl, hst]; decide
      by_cases htime : maxWait ≤ clock
      · simp [waitForAppRunnerService, hrun, hop, htime, hst]
      · simp only [List.length_cons] at hbound
        have hrest : rest ≠ [] := by
          intro h0
          rw [h0] at hbound
          simp at hbound
          omega
        have hd2 : 1 ≤ nextDelay clock delay := nextDelay_pos clock delay hd
        have hb2 : maxWait < (clock + nextDelay clock delay) + rest.length := by omega
        have h2 : (waitForAppRunnerService false maxWait clock delay
            (DescribeResp.ok (some svc) :: rest)).2
              = (waitForAppRunnerService false maxWait
                  (clock + nextDelay clock delay) (nextDelay clock delay) rest).2 := by
          simp [waitForAppRunnerService, hrun, hop, htime, hst]
        rw [h2]
        exact ih _ _ _ hrest (fun x hx => hall x (by simp [hx])) hd2 hb2

/-- A reachDeleted wait over uniformly in-progress responses whose bound
elapses returns the last-observed record (line 172, deleting mode). -/
lemma waitFor_timeout_true (svc : Service)
    (hst : svc.status = some "OPERATION_IN_PROGRESS") :
    ∀ (rs : List DescribeResp) (clock delay maxWait : Nat),
      rs ≠ [] → (∀ r ∈ rs, r = DescribeResp.ok (some svc)) → 1 ≤ delay →
      maxWait < clock + rs.length →
      (waitForAppRunnerService true maxWait clock delay rs).2 = WaitRet.ret (some svc) := by
  intro rs
  induction rs with
  | nil => intro clock delay maxWait hne _ _ _; exact absurd rfl hne
  | cons r rest ih =>
      intro clock delay maxWait _ hall hd hbound
      have hr : r = DescribeResp.ok (some svc) := hall r (by simp)
      subst hr
      have hdel : ((some svc).bind Service.status == some "DELETED") = false := by
        rw [show (some svc).bind Service.status = svc.status from rfl, hst]; decide
      have hop : ((some svc).bind Service.status != some "OPERATION_IN_PROGRESS") = false := by
        rw [show (some svc).bind Service.status = svc.status from rfl, hst]; decide
      by_cases htime : maxWait ≤ clock
      · simp [waitForAppRunnerService, hdel, hop, htime, hst]
      · simp only [List.length_cons] at hbound
        have hrest : rest ≠ [] := by
          intro h0
          rw [h0] at hbound
          simp at hbound
          omega
        have hd2 : 1 ≤ nextDelay clock delay := nextDelay_pos clock delay hd
        have hb2 : maxWait < (clock + nextDelay clock delay) + rest.length := by omega
        have h2 : (waitForAppRunnerService true maxWait clock delay
            (DescribeResp.ok (some svc) :: rest)).2
              = (waitForAppRunnerService true maxWait
                  (clock + nextDelay clock delay) (nextDelay clock delay) rest).2 := by
          simp [waitForAppRunnerService, hdel, hop, htime, hst]
        rw [h2]
        exact ih _ _ _ hrest (fun x hx => hall x (by simp [hx])) hd2 hb2

/-- Every sleep the polling loop performs uses the delay the code's strict
schedule assigns to the elapsed clock at that iteration, provided the
incoming delay satisfies the loop invariant (delay is still 1 while the
clock has not passed 5). -/
lemma waitFor_schedule (isDeleting : Bool) (maxWait : Nat) :
    ∀ (rs : List DescribeResp) (clock delay : Nat), (clock ≤ 5 → delay = 1) →
      ∀ p ∈ (waitForAppRunnerService isDeleting maxWait clock delay rs).1,
        p.2 = codeScheduleDelay p.1 := by
  intro rs
  induction rs with
  | nil => intro clock delay _ p hp; simp [waitForAppRunnerService] at hp
  | cons r rest ih =>
      intro clock delay hinv p hp
      have hinv2 : clock + nextDelay clock delay ≤ 5 → nextDelay clock delay = 1 := by
        intro hle
        by_cases h5 : clock ≤ 5
        · have hnd : nextDelay clock delay = delay := by
            unfold nextDelay
            rw [if_neg (by omega : ¬ 60 < clock), if_neg (by omega : ¬ 20 < clock),
              if_neg (by omega : ¬ 5 < clock)]
          rw [hnd, hinv h5]
        · exfalso; omega
      have hsched : nextDelay clock delay = codeScheduleDelay clock :=
        nextDelay_eq_schedule clock delay hinv
      cases r with
      | errNotFound =>
          cases isDeleting <;> simp [waitForAppRunnerService] at hp
      | errOther => simp [waitForAppRunnerService] at hp
      | ok svc =>
          simp only [waitForAppRunnerService] at hp
          split at hp
          · split at hp
            · simp at hp
            · split at hp
              · simp at hp
              · split at hp
                · simp at hp
                · rw [List.mem_cons] at hp
                  rcases hp with rfl | hp
                  · simpa using hsched
                  · exact ih _ _ hinv2 p hp
          · split at hp
            · simp at hp
            · split at hp
              · simp at hp
              · split at hp
                · simp at hp
                · rw [List.mem_cons] at hp
                  rcases hp with rfl | hp
                  · simpa using hsched
                  · exact ih _ _ hinv2 p hp

/-- The mutation trace of the update flow does not depend on how the wait
loop ends. -/
lemma updateApp_trace (opts : EnsureAppRunnerOptions) (existing : Service)
    (env : UpdateEnv) :
    (updateAppRunnerService opts existing env).1 = updateServiceTrace opts existing env := by
  unfold updateAppRunnerService
  split
  · rfl
  · split
    · rfl
    · split <;> rfl
    · rfl
    · rfl
    · rfl

/-- The mutation trace of the create flow does not depend on how the wait
loop ends. -/
lemma createApp_trace (opts : EnsureAppRunnerOptions) (env : CreateEnv) :
    (createAppRunnerService opts env).1 = createServiceTrace opts env := by
  unfold createAppRunnerService
  split <;> rfl

/-- The delete flow sends exactly the DeleteServiceCommand. -/
lemma deleteApp_trace (serviceArn : String) (env : DeleteEnv) :
    (deleteAppRunnerService serviceArn env).1 = [Event.deleteSvc serviceArn] := by
  unfold deleteAppRunnerService
  split
  · rfl
  · rfl
  · rfl
  · split <;> rfl

lemma reclaim_no_update (pages : List (List ASCSummary)) :
    ∀ e ∈ deleteUnusedAutoScalingConfigurations pages, Event.isUpdateSvc e = false := by
  intro e he
  rw [reclaim_eq_filter_join] at he
  obtain ⟨r, _, rfl⟩ := List.mem_map.mp he
  rfl

lemma createServiceTrace_no_update (opts : EnsureAppRunnerOptions) (env : CreateEnv) :
    ∀ e ∈ createServiceTrace opts env, Event.isUpdateSvc e = false := by
  intro e he
  unfold createServiceTrace at he
  rw [List.mem_append] at he
  rcases he with he | he
  · exact reclaim_no_update env.ascPages e he
  · rcases he with _ | ⟨_, _ | ⟨_, _ | ⟨_, h0⟩⟩⟩
    · rfl
    · rfl
    · rfl
    · exact absurd h0 (List.not_mem_nil e)

/-- A service record observed mid-operation. -/
def svcInProgress : Service :=
  { serviceArn := some "arn:aws:apprunner:wait-svc"
  , serviceUrl := some "wait.example.com"
  , status := some "OPERATION_IN_PROGRESS"
  , sourceConfiguration := none
  , healthCheckConfiguration := none
  , instanceConfiguration := none
  , autoScalingConfigurationArn := none }

/-- A service record observed as RUNNING. -/
def svcRunning : Service :=
  { svcInProgress with status := some "RUNNING" }

/-- Claim C2 is false as stated: at a concrete run whose bound elapses
immediately over an in-progress record, the reachRunning waiter returns
undefined rather than the last-observed record, and the reachDeleted waiter
returns the last-observed record rather than absent (line 172 reads
return isDeleting ? result.Service : undefined). -/
theorem c2_counterexample :
    (waitForAppRunnerService false 0 0 1 [DescribeResp.ok (some svcInProgress)]).2
        = WaitRet.ret none
    ∧ (waitForAppRunnerService false 0 0 1 [DescribeResp.ok (some svcInProgress)]).2
        ≠ WaitRet.ret (some svcInProgress)
    ∧ (waitForAppRunnerService true 0 0 1 [DescribeResp.ok (some svcInProgress)]).2
        = WaitRet.ret (some svcInProgress)
    ∧ (waitForAppRunnerService true 0 0 1 [DescribeResp.ok (some svcInProgress)]).2
        ≠ WaitRet.ret none := by
  decide

/-- Claim C2 (amended): when maxWaitSeconds elapses without reaching the
target, the waiter returns absent for reachRunning and the last-observed
record for reachDeleted; and a reachRunning call can only return a record
it observed with status RUNNING, so it never reports success without
observing RUNNING within the bound. -/
theorem c2_timeout_behaviour :
    (∀ (maxWait : Nat) (rs : List DescribeResp) (s : Service),
        (waitForAppRunnerService false maxWait 0 1 rs).2 = WaitRet.ret (some s) →
        s.status = some "RUNNING")
    ∧ (∀ (maxWait : Nat) (svc : Service), svc.status = some "OPERATION_IN_PROGRESS" →
        (waitForAppRunnerService false maxWait 0 1
            (List.replicate (maxWait + 1) (DescribeResp.ok (some svc)))).2 = WaitRet.ret none
        ∧ (waitForAppRunnerService true maxWait 0 1
            (List.replicate (maxWait + 1) (DescribeResp.ok (some svc)))).2
              = WaitRet.ret (some svc)) := by
  constructor
  · intro maxWait rs s h
    exact waitFor_false_ret_some rs 0 1 s h
  · intro maxWait svc hst
    have hne : List.replicate (maxWait + 1) (DescribeResp.ok (some svc)) ≠ [] := by
      simp
    have hall : ∀ r ∈ List.replicate (maxWait + 1) (DescribeResp.ok (some svc)),
        r = DescribeResp.ok (some svc) := fun r hr => List.eq_of_mem_replicate hr
    have hb : maxWait
        < 0 + (List.replicate (maxWait + 1) (DescribeResp.ok (some svc))).length := by
      simp
    exact ⟨waitFor_timeout_false svc hst _ 0 1 maxWait hne hall (le_refl 1) hb,
           waitFor_timeout_true svc hst _ 0 1 maxWait hne hall (le_refl 1) hb⟩

/-- Witness for the amended claim C2 at concrete inputs: a three-response
in-progress run with a two-second bound times out with the swapped return
values, and a RUNNING response makes the reachRunning waiter return a
RUNNING record. -/
theorem c2_witness :
    svcRunning.status = some "RUNNING"
    ∧ ((waitForAppRunnerService false 2 0 1
          (List.replicate 3 (DescribeResp.ok (some svcInProgress)))).2 = WaitRet.ret none
       ∧ (waitForAppRunnerService true 2 0 1
          (List.replicate 3 (DescribeResp.ok (some svcInProgress)))).2
            = WaitRet.ret (some svcInProgress)) :=
  ⟨c2_timeout_behaviour.1 0 [DescribeResp.ok (some svcRunning)] svcRunning (by decide),
   c2_timeout_behaviour.2 2 svcInProgress (by decide)⟩

/-- Claim C4 is false as stated: in the concrete run below the loop reaches
elapsed = 5 (clocks 0,1,2,3,4,5) and sleeps 1 second there, while the
claimed schedule maps elapsed 5 (inside [5,20)) to 2 seconds; the code's
comparisons at lines 174-180 are strict, so the boundary is excluded. -/
theorem c4_counterexample :
    ((5, 1) : Nat × Nat) ∈ (waitForAppRunnerService false 10 0 1
        (List.replicate 12 (DescribeResp.ok (some svcInProgress)))).1
    ∧ claimScheduleDelay 5 = 2 ∧ (1 : Nat) ≠ 2 := by
  decide

/-- Claim C4 (amended): in every run of the waiter, every sleep uses the
delay given by the elapsed seconds under the schedule with strict lower
bounds: 1s while elapsed is in [0,5], 2s in (5,20], 5s in (20,60], and 10s
in (60,inf). -/
theorem c4_delay_schedule :
    ∀ (isDeleting : Bool) (maxWait : Nat) (rs : List DescribeResp)
      (p : Nat × Nat), p ∈ (waitForAppRunnerService isDeleting maxWait 0 1 rs).1 →
      p.2 = codeScheduleDelay p.1 :=
  fun isDeleting maxWait rs p hp =>
    waitFor_schedule isDeleting maxWait rs 0 1 (fun _ => rfl) p hp

/-- Witness for the amended claim C4: the sleep recorded at elapsed 5 in the
concrete run of the counterexample satisfies the strict schedule. -/
theorem c4_witness :
    ((5, 1) : Nat × Nat).2 = codeScheduleDelay ((5, 1) : Nat × Nat).1 :=
  c4_delay_schedule false 10
    (List.replicate 12 (DescribeResp.ok (some svcInProgress))) (5, 1) (by decide)

/-- Options of a deployment whose desired health-check path is /health. -/
def opts1 : EnsureAppRunnerOptions :=
  { region := "us-east-1"
  , deployment := "dev"
  , component := "api"
  , ecrRepositoryName := "letsgo"
  , imageTag := "tag1"
  , autoScalingConfigurationName := "asc-api"
  , autoScaling := { minSize := 1, maxSize := 2, maxConcurrency := 50 }
  , healthCheck := { path := "/health", interval := 5, timeout := 2
                   , healthyThreshold := 2, unhealthyThreshold := 3 }
  , appRunnerServiceName := "api-svc"
  , appRunnerInstanceRoleArn := "role-arn"
  , appRunnerCpu := none
  , appRunnerMemory := none
  , ignoreConfigKeys := [] }

/-- An existing service converged with opts1 in every category except the
health-check path (observed /old), whose variable bindings carry the
previous fingerprint T0. -/
def ex1 : Service :=
  { serviceArn := some "arn:svc:api"
  , serviceUrl := some "api.example.com"
  , status := some "RUNNING"
  , sourceConfiguration := some
      { imageRepository := some
          { imageIdentifier := some "repoUrl:tag1"
          , imageConfiguration := some
              { runtimeEnvironmentSecrets := [("A", "v")]
              , runtimeEnvironmentVariables := [("LETSGO_UPDATED_AT", "T0")] } } }
  , healthCheckConfiguration := some
      { path := some "/old", interval := some 5, timeout := some 2
      , healthyThreshold := some 2, unhealthyThreshold := some 3 }
  , instanceConfiguration := none
  , autoScalingConfigurationArn := some "asc-arn-1" }

/-- Update environment in which only the health check differs: the current
autoscaling settings match, the config-store keys match the current secret
keys, the fresh timestamp is T1, and the post-update describe observes the
service RUNNING with its variable bindings unchanged (still T0). -/
def env1 : UpdateEnv :=
  { ecrUrl := "repoUrl"
  , ascPages := []
  , currentASC := { maxConcurrency := some 50, maxSize := some 2, minSize := some 1 }
  , createArn := some "asc-arn-2"
  , desiredConfig := [("A", "v2")]
  , now := "T1"
  , waitResponses := [DescribeResp.ok (some ex1)] }

/-- Claim C1: at the failing input (a nonempty plan consisting only of the
healthcheck category) the code does not stamp the fresh fingerprint into
any submitted variable bindings — the update request carries no
SourceConfiguration at all, because the ImageConfiguration spread at
lines 344-357 requires the variables category — yet the check at
lines 395-398 still compares the observed fingerprint against the fresh
timestamp, so this successful update is reported as rolled back. -/
theorem c1_fingerprint_gap :
    updatePlan opts1 ex1 env1 = ["healthcheck settings"]
    ∧ (updateRequest opts1 ex1 env1).sourceConfiguration = none
    ∧ (updateAppRunnerService opts1 ex1 env1).2 = UpdateOutcome.exitRolledBack := by
  decide

lemma reclaim_any_tag_false (pages : List (List ASCSummary)) :
    (deleteUnusedAutoScalingConfigurations pages).any Event.isTagSvc = false := by
  rw [reclaim_eq_filter_join]
  rw [List.any_eq_false]
  intro e he
  obtain ⟨r, _, rfl⟩ := List.mem_map.mp he
  simp [Event.isTagSvc]

/-- The observed health-check configuration matching opts1 exactly. -/
def healthMatching : HealthObs :=
  { path := some "/health", interval := some 5, timeout := some 2
  , healthyThreshold := some 2, unhealthyThreshold := some 3 }

/-- An existing service fully converged with opts1. -/
def ex3 : Service :=
  { ex1 with healthCheckConfiguration := some healthMatching }

/-- An unused active autoscaling revision, eligible for the reclaim sweep. -/
def ascOld : ASCSummary :=
  { arn := some "asc-old", hasAssociatedService := false, status := some "active" }

/-- Update environment converged in every category, with one unused active
autoscaling revision listed for the reclaim sweep. -/
def env3 : UpdateEnv :=
  { env1 with ascPages := [[ascOld]], waitResponses := [] }

/-- Claim C3 is false as stated: at this concrete converged run the computed
plan is empty and the flow sends no TagResourceCommand at all (the tag call
at lines 368-374 sits inside the nonempty-plan branch), while it does send
a reclaim deletion, a network mutation that is not a tag confirmation. -/
theorem c3_counterexample :
    updatePlan opts1 ex3 env3 = []
    ∧ (updateAppRunnerService opts1 ex3 env3).1 = [Event.deleteASC (some "asc-old")]
    ∧ (updateAppRunnerService opts1 ex3 env3).1.any Event.isTagSvc = false := by
  decide

/-- Claim C3 (amended): in the update flow, tag labels are applied exactly
when the computed UpdatePlan is nonempty (the tag call is gated by the
diff), so tags are not re-applied on an empty plan; and when the plan is
empty and the autoscaling settings did not differ, the only network
mutations are the reclaim deletions of unused autoscaling revisions. -/
theorem c3_tags_gated :
    (∀ (opts : EnsureAppRunnerOptions) (existing : Service) (env : UpdateEnv),
        ((updateAppRunnerService opts existing env).1.any Event.isTagSvc)
          = !(updatePlan opts existing env).isEmpty)
    ∧ (∀ (opts : EnsureAppRunnerOptions) (existing : Service) (env : UpdateEnv),
        updatePlan opts existing env = [] →
        autoScalingNeedsUpdate env.currentASC opts = false →
        (updateAppRunnerService opts existing env).1
          = deleteUnusedAutoScalingConfigurations env.ascPages) := by
  constructor
  · intro opts existing env
    rw [updateApp_trace]
    unfold updateServiceTrace
    rw [List.any_append, List.any_append, reclaim_any_tag_false]
    cases hpl : (updatePlan opts existing env).isEmpty <;>
      cases hasc : autoScalingNeedsUpdate env.currentASC opts <;>
        simp [Event.isTagSvc]
  · intro opts existing env hpl hasc
    rw [updateApp_trace]
    unfold updateServiceTrace
    simp [hpl, hasc]

/-- Witness for the amended claim C3 at the concrete converged run: the
whole mutation trace is exactly the reclaim deletions. -/
theorem c3_witness :
    (updateAppRunnerService opts1 ex3 env3).1
      = deleteUnusedAutoScalingConfigurations env3.ascPages :=
  c3_tags_gated.2 opts1 ex3 env3 (by decide) (by decide)

/-- Claim C5: the reclaim sweep deletes exactly the listed revisions with
hasAssociatedService = false and status = active, across all drained pages;
in both the create flow and the update flow the reclaim deletions form the
initial segment of the mutation trace (parts 2 and 4), and no deletion
occurs after that segment (parts 3 and 5), so every deletion precedes every
creation of a new revision for the flow's configuration name. -/
theorem c5_reclaim_before_create :
    (∀ pages, deleteUnusedAutoScalingConfigurations pages
        = (pages.flatten.filter unusedActive).map (fun r => Event.deleteASC r.arn))
    ∧ (∀ (opts : EnsureAppRunnerOptions) (env : CreateEnv),
        ((createAppRunnerService opts env).1.takeWhile Event.isDeleteASC)
          = deleteUnusedAutoScalingConfigurations env.ascPages)
    ∧ (∀ (opts : EnsureAppRunnerOptions) (env : CreateEnv),
        ((createAppRunnerService opts env).1.dropWhile Event.isDeleteASC).all
          (fun e => !(Event.isDeleteASC e)) = true)
    ∧ (∀ (opts : EnsureAppRunnerOptions) (existing : Service) (env : UpdateEnv),
        ((updateAppRunnerService opts existing env).1.takeWhile Event.isDeleteASC)
          = deleteUnusedAutoScalingConfigurations env.ascPages)
    ∧ (∀ (opts : EnsureAppRunnerOptions) (existing : Service) (env : UpdateEnv),
        ((updateAppRunnerService opts existing env).1.dropWhile Event.isDeleteASC).all
          (fun e => !(Event.isDeleteASC e)) = true) := by
  refine ⟨reclaim_eq_filter_join, ?_, ?_, ?_, ?_⟩
  · intro opts env
    rw [createApp_trace]
    unfold createServiceTrace
    rw [takeWhile_append_all _ _ _ (reclaim_all_deleteASC env.ascPages)]
    simp [Event.isDeleteASC]
  · intro opts env
    rw [createApp_trace]
    unfold createServiceTrace
    rw [dropWhile_append_all _ _ _ (reclaim_all_deleteASC env.ascPages)]
    simp [Event.isDeleteASC]
  · intro opts existing env
    rw [updateApp_trace]
    unfold updateServiceTrace
    rw [List.append_assoc,
      takeWhile_append_all _ _ _ (reclaim_all_deleteASC env.ascPages)]
    cases hasc : autoScalingNeedsUpdate env.currentASC opts <;>
      cases hpl : (updatePlan opts existing env).isEmpty <;>
        simp [Event.isDeleteASC]
  · intro opts existing env
    rw [updateApp_trace]
    unfold updateServiceTrace
    rw [List.append_assoc,
      dropWhile_append_all _ _ _ (reclaim_all_deleteASC env.ascPages)]
    cases hasc : autoScalingNeedsUpdate env.currentASC opts <;>
      cases hpl : (updatePlan opts existing env).isEmpty <;>
        simp [Event.isDeleteASC]

/-- Claim C6: when exactly one of the five categories differs (per the
code's own change detection), and the CreateAutoScalingConfiguration
response carries a usable (nonempty) arn, the computed plan is exactly that
category's label; and the autoscaling category differs precisely when any
of maxConcurrency, minSize, maxSize differs by direct inequality. -/
theorem c6_diff_minimality :
    (∀ (opts : EnsureAppRunnerOptions) (existing : Service) (env : UpdateEnv)
        (c : DiffCategory),
        truthy env.createArn = true →
        categoryDiffers opts existing env c = true →
        (∀ cat, cat ≠ c → categoryDiffers opts existing env cat = false) →
        updatePlan opts existing env = [categoryLabel c])
    ∧ (∀ (cur : CurASC) (opts : EnsureAppRunnerOptions),
        autoScalingNeedsUpdate cur opts = true
          ↔ (cur.maxConcurrency ≠ some opts.autoScaling.maxConcurrency
             ∨ cur.minSize ≠ some opts.autoScaling.minSize
             ∨ cur.maxSize ≠ some opts.autoScaling.maxSize)) := by
  constructor
  · intro opts existing env c hArn hc hothers
    cases c with
    | autoscaling =>
        have hH := hothers DiffCategory.healthcheck (by decide)
        have hI := hothers DiffCategory.instanceSizing (by decide)
        have hIm := hothers DiffCategory.image (by decide)
        have hV := hothers DiffCategory.envVars (by decide)
        simp only [categoryDiffers] at hc hH hI hIm hV
        simp [updatePlan, newASCArn, hc, hArn, hH, hI, hIm, hV, categoryLabel]
    | healthcheck =>
        have hA := hothers DiffCategory.autoscaling (by decide)
        have hI := hothers DiffCategory.instanceSizing (by decide)
        have hIm := hothers DiffCategory.image (by decide)
        have hV := hothers DiffCategory.envVars (by decide)
        simp only [categoryDiffers] at hc hA hI hIm hV
        simp [updatePlan, newASCArn, truthy, hc, hA, hI, hIm, hV, categoryLabel]
    | instanceSizing =>
        have hA := hothers DiffCategory.autoscaling (by decide)
        have hH := hothers DiffCategory.healthcheck (by decide)
        have hIm := hothers DiffCategory.image (by decide)
        have hV := hothers DiffCategory.envVars (by decide)
        simp only [categoryDiffers] at hc hA hH hIm hV
        simp [updatePlan, newASCArn, truthy, hc, hA, hH, hIm, hV, categoryLabel]
    | image =>
        have hA := hothers DiffCategory.autoscaling (by decide)
        have hH := hothers DiffCategory.healthcheck (by decide)
        have hI := hothers DiffCategory.instanceSizing (by decide)
        have hV := hothers DiffCategory.envVars (by decide)
        simp only [categoryDiffers] at hc hA hH hI hV
        simp [updatePlan, newASCArn, truthy, hc, hA, hH, hI, hV, categoryLabel]
    | envVars =>
        have hA := hothers DiffCategory.autoscaling (by decide)
        have hH := hothers DiffCategory.healthcheck (by decide)
        have hI := hothers DiffCategory.instanceSizing (by decide)
        have hIm := hothers DiffCategory.image (by decide)
        simp only [categoryDiffers] at hc hA hH hI hIm
        simp [updatePlan, newASCArn, truthy, hc, hA, hH, hI, hIm, categoryLabel]
  · intro cur opts
    unfold autoScalingNeedsUpdate
    simp [Bool.or_eq_true, bne_iff_ne]
    tauto

/-- Witness for claim C6 at a concrete pair differing only in the
healthcheck category. -/
theorem c6_witness :
    updatePlan opts1 ex1 env1 = [categoryLabel DiffCategory.healthcheck] :=
  c6_diff_minimality.1 opts1 ex1 env1 DiffCategory.healthcheck
    (by decide) (by decide) (by decide)

lemma contains_false_not_mem {l : List String} {a : String}
    (h : l.contains a = false) : a ∉ l := by
  intro hm
  have h2 : l.contains a = true := List.elem_iff.mpr hm
  rw [h2] at h
  exact Bool.noConfusion h

lemma not_mem_contains_false {l : List String} {a : String}
    (h : a ∉ l) : l.contains a = false := by
  cases hc : l.contains a
  · rfl
  · exact absurd (List.elem_iff.mp hc) h

/-- Claim C7: the code's variables change detection holds iff the symmetric
difference of the current and desired key sets, with ignored keys excluded
on both sides, is nonempty (only key presence is consulted — the detection
is a function of the key lists alone); the variables category sits in the
plan exactly when that detection fires; and the spec's scenario with
ignoreConfigKeys = [LEGACY_KEY], current keys A and LEGACY_KEY, desired
keys A reports no variables change. -/
theorem c7_variables_key_diff :
    (∀ (currentKeys desiredKeys ignore : List String),
        configNeedsUpdate currentKeys desiredKeys ignore = true
          ↔ specVariablesDiffer currentKeys desiredKeys ignore)
    ∧ (∀ (opts : EnsureAppRunnerOptions) (existing : Service) (env : UpdateEnv),
        ("variables" ∈ updatePlan opts existing env
          ↔ configNeedsUpdate (currentConfigKeys existing)
              (env.desiredConfig.map Prod.fst) opts.ignoreConfigKeys = true))
    ∧ configNeedsUpdate ["A", "LEGACY_KEY"] ["A"] ["LEGACY_KEY"] = false := by
  refine ⟨?_, ?_, by decide⟩
  · intro currentKeys desiredKeys ignore
    unfold configNeedsUpdate specVariablesDiffer
    rw [Bool.or_eq_true, List.find?_isSome, List.find?_isSome]
    constructor
    · rintro (⟨k, hk, hp⟩ | ⟨k, hk, hp⟩)
      · rw [Bool.and_eq_true, Bool.not_eq_true', Bool.not_eq_true'] at hp
        exact ⟨k, Or.inl ⟨hk, contains_false_not_mem hp.2, contains_false_not_mem hp.1⟩⟩
      · rw [Bool.and_eq_true, Bool.not_eq_true', Bool.not_eq_true'] at hp
        exact ⟨k, Or.inr ⟨hk, contains_false_not_mem hp.2, contains_false_not_mem hp.1⟩⟩
    · rintro ⟨k, ⟨hk, hni, hnc⟩ | ⟨hk, hni, hnd⟩⟩
      · refine Or.inl ⟨k, hk, ?_⟩
        rw [Bool.and_eq_true, Bool.not_eq_true', Bool.not_eq_true']
        exact ⟨not_mem_contains_false hnc, not_mem_contains_false hni⟩
      · refine Or.inr ⟨k, hk, ?_⟩
        rw [Bool.and_eq_true, Bool.not_eq_true', Bool.not_eq_true']
        exact ⟨not_mem_contains_false hnd, not_mem_contains_false hni⟩
  · intro opts existing env
    unfold updatePlan
    cases hc : configNeedsUpdate (currentConfigKeys existing)
        (env.desiredConfig.map Prod.fst) opts.ignoreConfigKeys <;>
      cases h1 : truthy (newASCArn opts env) <;>
        cases h2 : healthCheckNeedsUpdate existing opts <;>
          cases h3 : instanceNeedsUpdate existing opts <;>
            cases h4 : imageNeedsUpdate existing env.ecrUrl opts <;>
              simp [h1, h2, h3, h4, hc]

/-- Claim C9: whenever discovery matches two or more services for the
identity, the run exits with the ambiguous outcome and the mutation trace
is empty — no create, update or delete command is sent and no match is
auto-picked (lines 615-632). -/
theorem c9_ambiguous_halts :
    ∀ (opts : EnsureAppRunnerOptions) (env : EnsureEnv),
      1 < (listLetsGoAppRunnerServices (some opts.deployment) (some opts.component)
          env.listPages).length →
      ensureAppRunner opts env = ([], EnsureOutcome.exitAmbiguous) := by
  intro opts env h
  simp [ensureAppRunner, h]

/-- Tags carrying the identity of opts1. -/
def tagsMatching : List (Option String × Option String) :=
  [(some LetsGoDeploymentTagKey, some "dev"), (some LetsGoComponentTagKey, some "api")]

/-- First of two matching summaries. -/
def summaryA : Summary :=
  { serviceArn := some "arn:svc:a", serviceUrl := some "a.example.com"
  , status := some "RUNNING" }

/-- Second of two matching summaries. -/
def summaryB : Summary :=
  { serviceArn := some "arn:svc:b", serviceUrl := some "b.example.com"
  , status := some "RUNNING" }

/-- A create-flow environment whose wait observes RUNNING. -/
def createEnvOk : CreateEnv :=
  { ecrUrl := "repoUrl", ascPages := [], desiredConfig := []
  , now := "T1", createResp := some svcRunning
  , waitResponses := [DescribeResp.ok (some svcRunning)] }

/-- Discovery environment returning two services for the same identity. -/
def env9 : EnsureEnv :=
  { listPages := [[(summaryA, tagsMatching), (summaryB, tagsMatching)]]
  , deleteEnv := { deleteResp := DeleteResp.ok, waitResponses := [] }
  , describeResp := none
  , createEnv := createEnvOk
  , updateEnv := env1 }

/-- Witness for claim C9 at a concrete two-match discovery. -/
theorem c9_witness : ensureAppRunner opts1 env9 = ([], EnsureOutcome.exitAmbiguous) :=
  c9_ambiguous_halts opts1 env9 (by decide)

/-- Claim C10: the service listing equals the kept entries of all drained
pages in order (the NextToken loop is fully drained before returning), and
every kept entry carries a truthy (present and nonempty) deployment tag and
component tag, whatever filters — including none — were supplied. -/
theorem c10_listing_tags_and_pagination :
    ∀ (deployment component : Option String)
      (pages : List (List (Summary × List (Option String × Option String)))),
      listLetsGoAppRunnerServices deployment component pages
        = ((pages.flatten.filter
            (fun e => keepService deployment component e.2)).map Prod.fst)
      ∧ (pages.flatten.filter (fun e => keepService deployment component e.2)).all
          (fun e => truthy (tagValue e.2 LetsGoDeploymentTagKey)
            && truthy (tagValue e.2 LetsGoComponentTagKey)) = true := by
  intro deployment component pages
  constructor
  · induction pages with
    | nil => simp [listLetsGoAppRunnerServices]
    | cons page rest ih =>
        simp [listLetsGoAppRunnerServices, ih, List.filter_append]
  · rw [List.all_eq_true]
    intro e he
    rw [List.mem_filter] at he
    have hk := he.2
    unfold keepService at hk
    simp only [Bool.and_eq_true] at hk
    rw [Bool.and_eq_true]
    exact ⟨hk.1.1.1, hk.1.1.2⟩

/-- Claim C8: when discovery yields exactly one summary, its status is
CREATE_FAILED, and the embedded delete flow (including its wait for
deletion) succeeds, the run performs the delete flow followed by the create
flow — its trace is the delete trace followed by the create trace, its
outcome is the create flow's outcome, and no UpdateServiceCommand is ever
sent. -/
theorem c8_create_failed_recreate :
    ∀ (opts : EnsureAppRunnerOptions) (env : EnsureEnv) (s : Summary),
      listLetsGoAppRunnerServices (some opts.deployment) (some opts.component)
          env.listPages = [s] →
      s.status = some "CREATE_FAILED" →
      (deleteAppRunnerService (s.serviceArn.getD "") env.deleteEnv).2
          = DeleteOutcome.ok →
      ensureAppRunner opts env
        = ((deleteAppRunnerService (s.serviceArn.getD "") env.deleteEnv).1
            ++ (createAppRunnerService opts env.createEnv).1,
           EnsureOutcome.createDone (createAppRunnerService opts env.createEnv).2)
      ∧ (ensureAppRunner opts env).1.all (fun e => !(Event.isUpdateSvc e)) = true := by
  intro opts env s h1 h2 h3
  have hmain : ensureAppRunner opts env
      = ((deleteAppRunnerService (s.serviceArn.getD "") env.deleteEnv).1
          ++ (createAppRunnerService opts env.createEnv).1,
         EnsureOutcome.createDone (createAppRunnerService opts env.createEnv).2) := by
    simp [ensureAppRunner, h1, h2, h3]
  refine ⟨hmain, ?_⟩
  rw [hmain]
  show ((deleteAppRunnerService (s.serviceArn.getD "") env.deleteEnv).1
      ++ (createAppRunnerService opts env.createEnv).1).all
      (fun e => !(Event.isUpdateSvc e)) = true
  rw [List.all_append, Bool.and_eq_true]
  constructor
  · rw [deleteApp_trace]
    rfl
  · rw [createApp_trace, List.all_eq_true]
    intro e he
    rw [createServiceTrace_no_update opts env.createEnv e he]
    rfl

/-- The single discovered summary whose creation failed. -/
def summaryFailed : Summary :=
  { serviceArn := some "arn:svc:failed", serviceUrl := some "f.example.com"
  , status := some "CREATE_FAILED" }

/-- A service record observed as DELETED. -/
def svcDeleted : Service :=
  { svcInProgress with status := some "DELETED" }

/-- Environment for the CREATE_FAILED path: discovery finds exactly the
failed summary, the delete wait observes DELETED, and the create wait
observes RUNNING. -/
def env8 : EnsureEnv :=
  { listPages := [[(summaryFailed, tagsMatching)]]
  , deleteEnv := { deleteResp := DeleteResp.ok
                 , waitResponses := [DescribeResp.ok (some svcDeleted)] }
  , describeResp := none
  , createEnv := createEnvOk
  , updateEnv := env1 }

/-- Witness for claim C8 at the concrete CREATE_FAILED discovery. -/
theorem c8_witness :
    ensureAppRunner opts1 env8
      = ((deleteAppRunnerService ((summaryFailed.serviceArn).getD "") env8.deleteEnv).1
          ++ (createAppRunnerService opts1 env8.createEnv).1,
         EnsureOutcome.createDone (createAppRunnerService opts1 env8.createEnv).2)
    ∧ (ensureAppRunner opts1 env8).1.all (fun e => !(Event.isUpdateSvc e)) = true :=
  c8_create_failed_recreate opts1 env8 summaryFailed (by decide) (by decide) (by decide)
